import Mathlib

/-!
Shallow embedding of the gradient-username prompt component
(`src/modules/gradient_username.rs` and `src/configs/gradient.rs`).

Modelling conventions:

* A fragment's display text is represented by its list of grapheme
  clusters (each cluster a `String`), i.e. by the output of
  `UnicodeSegmentation::graphemes(true)` applied to the fragment's text.
  The Unicode segmenter is an external leaf utility; since grapheme
  clusters partition the underlying string, the string's UTF-8 byte
  length (Rust `str::len`) is the sum of the clusters' byte lengths,
  and quantifying over all cluster lists quantifies over all strings
  together with their segmentations.
* The `colorgrad` crate is external; a gradient curve is abstracted by
  its sampling function: `colorAt n i` is the `i`-th of `n` evenly
  spaced samples, already converted by `to_linear_rgba_u8` to an RGBA
  byte quadruple.  `Gradient.colors` mirrors `colorgrad::Gradient::colors`,
  which returns exactly `n` colors.
* The host `Context`, the `StringFormatter` and the privilege probe are
  external collaborators consumed through narrow interfaces; they enter
  as function parameters (environment lookup functions, a formatter
  function, a boolean).
* The non-Windows build is modelled (`USERNAME_ENV_VAR = "USER"`, no
  Administrator name override).
-/

namespace GradientUsername

/-- An RGBA byte quadruple, the result of `colorgrad::Color::to_linear_rgba_u8`. -/
structure Rgba where
  r : Nat
  g : Nat
  b : Nat
  a : Nat
deriving DecidableEq, Repr

/-- Model of `nu_ansi_term::Color`: an RGB constructor (the one the recolorizer emits)
plus an opaque encoding of the remaining named/fixed variants. -/
inductive AnsiColor where
  | Rgb (r g b : Nat)
  | Named (code : Nat)
deriving DecidableEq, Repr

/-- Model of `nu_ansi_term::Style`: foreground/background colors and boolean attributes. -/
structure Style where
  foreground : Option AnsiColor
  background : Option AnsiColor
  is_bold : Bool
  is_dimmed : Bool
  is_italic : Bool
  is_underline : Bool
  is_blink : Bool
  is_reverse : Bool
  is_hidden : Bool
  is_strikethrough : Bool
deriving DecidableEq, Repr

/-- Model of `nu_ansi_term::Style::default()`: everything unset. -/
def Style.default : Style :=
  ⟨none, none, false, false, false, false, false, false, false, false⟩

/-- Model of `crate::segment::TextSegment`: a text value (as its grapheme-cluster list)
and an optional style. -/
structure TextSegment where
  value : List String
  style : Option Style
deriving DecidableEq, Repr

/-- Model of `crate::segment::FillSegment`: same shape as `TextSegment`. -/
structure FillSegment where
  value : List String
  style : Option Style
deriving DecidableEq, Repr

/-- Modelled from the spec: `crate::segment::Segment` is not under `src/`;
the spec describes a Fragment as "a discriminated variant over
{Text, Fill, other}, each carrying a text value (an ordered sequence of
Unicode scalar values) and an optional Style". -/
inductive Segment where
  | text (s : TextSegment)
  | fill (s : FillSegment)
  | other (value : List String) (style : Option Style)
deriving DecidableEq, Repr

/-- Modelled from the spec: `Segment::style()` projects the optional style
of whichever variant is present. -/
def Segment.style : Segment → Option Style
  | .text s => s.style
  | .fill s => s.style
  | .other _ st => st

/-- Modelled from the spec: `Segment::value()` projects the text value
(here: its grapheme-cluster list) of whichever variant is present. -/
def Segment.value : Segment → List String
  | .text s => s.value
  | .fill s => s.value
  | .other v _ => v

/-- A gradient curve, abstracted by its sampling function (see module header):
`colorAt n i` is the `i`-th of `n` samples, as an RGBA byte quadruple. -/
structure Gradient where
  colorAt : Nat → Nat → Rgba

/-- Model of `colorgrad::Gradient::colors(n)`: the list of `n` evenly spaced samples. -/
def Gradient.colors (g : Gradient) (n : Nat) : List Rgba :=
  (List.range n).map (g.colorAt n)

/-- Lines 17–20 of `gradient_username.rs`: the input fragment's style, or
`Style::default()` when it has none. -/
def styleOrDefault (segment : Segment) : Style :=
  match segment.style with
  | some style => style
  | none => Style.default

/-- Embedding of `gradientify` (lines 11–46 of `gradient_username.rs`): sample the gradient
at `n` positions, skip the first `k` samples, zip with the fragment's grapheme
clusters, and emit one fragment per pair.  Only the `Text` arm overrides the
foreground; the `Fill` arm and the catch-all copy the style unchanged
(`Style { ..st }`). -/
def gradientify (segment : Segment) (gradient : Gradient) (n k : Nat) :
    List Segment :=
  let st := styleOrDefault segment
  (((gradient.colors n).drop k).zip segment.value).map fun cv =>
    match segment with
    | .text _ => .text ⟨[cv.2], some { st with
        foreground := some (.Rgb cv.1.r cv.1.g cv.1.b) }⟩
    | .fill _ => .fill ⟨[cv.2], some st⟩
    | .other _ _ => .text ⟨[cv.2], some st⟩

/-- The per-pair emission step of `gradientify` (the body of the `map` on
lines 28–44), exposed for indexed statements. -/
def emitSegment (segment : Segment) (c : Rgba) (v : String) : Segment :=
  match segment with
  | .text _ => .text ⟨[v], some { styleOrDefault segment with
      foreground := some (.Rgb c.r c.g c.b) }⟩
  | .fill _ => .fill ⟨[v], some (styleOrDefault segment)⟩
  | .other _ _ => .text ⟨[v], some (styleOrDefault segment)⟩

/-- Modelled from the spec: the per-pair emission the spec describes —
"emit a new Fragment of the same variant as the input (Text stays Text,
Fill stays Fill, anything else degrades to Text) whose text is the single
grapheme and whose Style is the original fragment's Style with only the
foreground color replaced by the sampled color" — i.e. the foreground is
replaced for EVERY variant. -/
def emitSegmentSpec (segment : Segment) (c : Rgba) (v : String) : Segment :=
  match segment with
  | .text _ => .text ⟨[v], some { styleOrDefault segment with
      foreground := some (.Rgb c.r c.g c.b) }⟩
  | .fill _ => .fill ⟨[v], some { styleOrDefault segment with
      foreground := some (.Rgb c.r c.g c.b) }⟩
  | .other _ _ => .text ⟨[v], some { styleOrDefault segment with
      foreground := some (.Rgb c.r c.g c.b) }⟩

/-- A style with its foreground erased; two styles agree on every
non-foreground attribute iff their `eraseFg` images are equal. -/
def eraseFg (s : Style) : Style :=
  { s with foreground := none }

/-- Value of `USERNAME_ENV_VAR` for the (modelled) non-Windows build (line 49). -/
def USERNAME_ENV_VAR : String := "USER"

/-- Modelled from the spec: `crate::configs::username::UsernameConfig` is not
under `src/`; the spec says the username-specific configuration supplies a
template string `format`, `show_always`, and the style strings `style_root`
and `style_user`. -/
structure UsernameConfig where
  format : String
  style_root : String
  style_user : String
  show_always : Bool
deriving DecidableEq, Repr

/-- Embedding of `is_login_user` (lines 138–142): true when `LOGNAME` is absent, or equals
the effective username (`map_or(true, |logname| logname == username)`). -/
def is_login_user (env : String → Option String) (username : String) : Bool :=
  match env "LOGNAME" with
  | none => true
  | some logname => logname == username

/-- Embedding of `is_ssh_session` (lines 176–179): any of the three SSH environment
variables is present (`get_env_os(env).is_some()` — presence only, the value
is not inspected). -/
def is_ssh_session (envOs : String → Option String) : Bool :=
  ["SSH_CONNECTION", "SSH_CLIENT", "SSH_TTY"].any fun e => (envOs e).isSome

/-- The gradient-selection `match` on lines 114–120: the built curve on
success, `colorgrad::magma()` (the fallback) on construction error. -/
def chooseGradient (built : Except String Gradient) (magma : Gradient) :
    Gradient :=
  match built with
  | .ok g => g
  | .error _ => magma

/-- Model of `segment.value().len()` (line 124): the UTF-8 byte length of the
fragment's text, i.e. the sum of the byte lengths of its grapheme clusters
(clusters partition the string). -/
def segLen (segment : Segment) : Nat :=
  (segment.value.map String.utf8ByteSize).sum

/-- The `flat_map` loop of lines 103–127: recolor each fragment with the
chosen gradient (rebuilt per fragment from the same construction result),
`n` total samples and the running offset `total`, then advance `total` by
`segment.value().len()`. -/
def recolorSegments (built : Except String Gradient) (magma : Gradient)
    (n : Nat) : List Segment → Nat → List Segment
  | [], _ => []
  | segment :: rest, total =>
      gradientify segment (chooseGradient built magma) n total
        ++ recolorSegments built magma n rest (total + segLen segment)

/-- The running-offset accumulator of the `flat_map` loop
(`total += segment.value().len()`, line 124) after processing a whole list,
starting from `total`. -/
def runningOffsetAfter (segments : List Segment) (total : Nat) : Nat :=
  segments.foldl (fun t s => t + segLen s) total

/-- Samples are sufficient for a stream: before each fragment, the total
sample count `n` is at least the running offset plus that fragment's
grapheme count, the offset advancing as the code advances it. -/
def samplesSufficient (n : Nat) : List Segment → Nat → Bool
  | [], _ => true
  | segment :: rest, total =>
      decide (total + segment.value.length ≤ n)
        && samplesSufficient n rest (total + segLen segment)

/-- Embedding of `module` (lines 60–136), non-Windows build.  External collaborators are
parameters: `env`/`envOs` are `Context::get_env`/`get_env_os`; `isRoot` is
the privilege probe `is_root_user()`; `fmt` is the `StringFormatter`
pipeline of lines 79–97, a function of the template string, the chosen
style string and the username, returning the formatted fragment list or a
format error; `built` is the result of the hard-coded
`colorgrad::CustomGradient` build and `magma` the fallback curve.  Returns
the final fragment list, or `none` when the component does not render. -/
def module (env envOs : String → Option String) (isRoot : Bool)
    (config : UsernameConfig)
    (fmt : String → String → String → Except String (List Segment))
    (built : Except String Gradient) (magma : Gradient) :
    Option (List Segment) :=
  match env USERNAME_ENV_VAR with
  | none => none
  | some username =>
    let show_username := config.show_always || isRoot
      || !(is_login_user env username) || is_ssh_session envOs
    if !show_username then none
    else
      let module_style := if isRoot then config.style_root else config.style_user
      match fmt config.format module_style username with
      | .error _ => none
      | .ok segments => some (recolorSegments built magma 144 segments 0)

/-- Modelled from the spec: "any SSH environment variable is present and
non-empty" — the display condition as the spec words it (used to compare
with the code's presence-only check). -/
def ssh_nonempty (envOs : String → Option String) : Bool :=
  ["SSH_CONNECTION", "SSH_CLIENT", "SSH_TTY"].any fun e =>
    match envOs e with
    | some v => !(v == "")
    | none => false

/-! Concrete instances used by witnesses and counterexamples. -/

/-- A style whose foreground is blue and whose bold flag is set. -/
def blueBold : Style :=
  { Style.default with foreground := some (.Rgb 0 0 255), is_bold := true }

/-- A one-grapheme `Fill` fragment with a blue, bold style. -/
def fillEx : Segment := .fill ⟨["a"], some blueBold⟩

/-- A constant gradient: every sample is the RGBA quadruple (9, 9, 9, 255). -/
def gradConst : Gradient := ⟨fun _ _ => ⟨9, 9, 9, 255⟩⟩

/-- A position-revealing gradient: the i-th of n samples is (i, n, 0, 255). -/
def gradIdx : Gradient := ⟨fun n i => ⟨i, n, 0, 255⟩⟩

/-- A five-grapheme `Text` fragment with no style. -/
def seg5 : Segment := .text ⟨["s", "t", "a", "r", "s"], none⟩

/-- The precomposed LATIN SMALL LETTER E WITH ACUTE (U+00E9): one grapheme
cluster, two UTF-8 bytes. -/
def eAcute : String := String.mk [Char.ofNat 233]

/-- A successful gradient construction result. -/
def built0 : Except String Gradient := .ok gradIdx

/-- A stand-in for the fallback curve `colorgrad::magma()`. -/
def magma0 : Gradient := ⟨fun _ _ => ⟨0, 0, 0, 255⟩⟩

/-- A configuration with `show_always = false`. -/
def config0 : UsernameConfig := ⟨"$user", "red bold", "yellow bold", false⟩

/-- A configuration with `show_always = true`. -/
def config1 : UsernameConfig := ⟨"$user", "red bold", "yellow bold", true⟩

/-- An environment where `USER` and `LOGNAME` are both `astronaut`. -/
def env0 : String → Option String := fun s =>
  if s = "USER" then some "astronaut"
  else if s = "LOGNAME" then some "astronaut"
  else none

/-- An OS-string environment where `SSH_TTY` is present with an empty value. -/
def envOs0 : String → Option String := fun s =>
  if s = "SSH_TTY" then some "" else none

/-- An environment with no variables set at all. -/
def envNone : String → Option String := fun _ => none

/-- An environment where `USER` is `cosmonaut` but `LOGNAME` is `astronaut`. -/
def envUser : String → Option String := fun s =>
  if s = "USER" then some "cosmonaut"
  else if s = "LOGNAME" then some "astronaut"
  else none

/-- A formatter that always succeeds with an empty fragment list. -/
def fmtEmpty : String → String → String → Except String (List Segment) :=
  fun _ _ _ => .ok []

/-- A formatter that always succeeds with a fixed two-fragment list. -/
def fmtOk : String → String → String → Except String (List Segment) :=
  fun _ _ _ => .ok [.text ⟨["a", "b"], none⟩, .fill ⟨["c"], none⟩]

/-- A formatter that always fails. -/
def fmtErr : String → String → String → Except String (List Segment) :=
  fun _ _ _ => .error "boom"

/-- A two-fragment stream: a two-grapheme text fragment and a one-grapheme
fill fragment. -/
def segsEx : List Segment := [.text ⟨["a", "b"], none⟩, .fill ⟨["c"], none⟩]

/-! Helper lemmas. -/

/-- Sampling a curve at `n` positions yields exactly `n` colors. -/
lemma colors_length (g : Gradient) (n : Nat) : (g.colors n).length = n := by
  simp [Gradient.colors]

/-- The output count of `gradientify`: the zip of the remaining colors with
the grapheme clusters. -/
lemma gradientify_length (seg : Segment) (gr : Gradient) (n k : Nat) :
    (gradientify seg gr n k).length = min (n - k) seg.value.length := by
  simp [gradientify, Gradient.colors]

/-- Indexing into the sampled color list. -/
lemma getElem?_colors (g : Gradient) {n j : Nat} (h : j < n) :
    (g.colors n)[j]? = some (g.colorAt n j) := by
  simp [Gradient.colors, List.getElem?_range h]

/-- Flattening a map to singleton lists is a map. -/
lemma flatten_map_singleton {α β : Type} (f : α → β) (l : List α) :
    (l.map fun x => [f x]).flatten = l.map f := by
  induction l with
  | nil => rfl
  | cons a l ih => simp [ih]

/-- Indexing into a zip, in `Option.bind`/`Option.map` form. -/
lemma getElem?_zip {α β : Type} (l₁ : List α) (l₂ : List β) (i : Nat) :
    (l₁.zip l₂)[i]? = l₁[i]?.bind fun a => l₂[i]?.map fun b => (a, b) := by
  rw [List.zip, List.getElem?_zipWith']
  cases l₁[i]? <;> simp

/-- Indexing into `gradientify`, phrased with `emitSegment`. -/
lemma getElem?_gradientify (seg : Segment) (gr : Gradient) (n k i : Nat) :
    (gradientify seg gr n k)[i]?
      = (((gr.colors n).drop k).zip seg.value)[i]?.map
          fun cv => emitSegment seg cv.1 cv.2 := by
  cases seg <;> simp [gradientify, emitSegment]

/-- The texts of the fragments `gradientify` emits are the singleton
grapheme clusters of the zipped pairs. -/
lemma gradientify_map_value (seg : Segment) (gr : Gradient) (n k : Nat) :
    (gradientify seg gr n k).map Segment.value
      = (((gr.colors n).drop k).zip seg.value).map fun cv => [cv.2] := by
  cases seg <;> simp [gradientify, Segment.value]

/-! Claim theorems. -/

/-- C9: for every gradient curve, total sample count and offset, recoloring a
fragment whose text is empty yields an empty output fragment list, and the
running-offset step of the loop (`total + segment.value().len()`) leaves the
offset unchanged. -/
theorem c9_empty_fragment (seg : Segment) (gr : Gradient) (n k t : Nat)
    (h : seg.value = []) :
    gradientify seg gr n k = [] ∧ t + segLen seg = t := by
  constructor
  · simp [gradientify, h]
  · simp [segLen, h]

/-- Witness for C9 at a concrete empty text fragment, n = 144, k = 3, t = 7. -/
theorem c9_empty_fragment_witness :
    (Segment.text ⟨[], some blueBold⟩).value = [] ∧
      (gradientify (Segment.text ⟨[], some blueBold⟩) gradIdx 144 3 = [] ∧
        7 + segLen (Segment.text ⟨[], some blueBold⟩) = 7) :=
  ⟨rfl, c9_empty_fragment (Segment.text ⟨[], some blueBold⟩) gradIdx 144 3 7 rfl⟩

/-- C10: when `n - k` is at least the fragment's grapheme count,
concatenating the texts of the output fragments of `gradientify`, in order,
yields exactly the input fragment's text. -/
theorem c10_text_preserved (seg : Segment) (gr : Gradient) (n k : Nat)
    (hc : seg.value.length ≤ n - k) :
    ((gradientify seg gr n k).map Segment.value).flatten = seg.value := by
  rw [gradientify_map_value]
  have h2 : (((gr.colors n).drop k).zip seg.value).map (fun cv => [cv.2])
      = (((gr.colors n).drop k).zip seg.value).map fun cv => [Prod.snd cv] := rfl
  rw [h2, flatten_map_singleton Prod.snd]
  apply List.map_snd_zip
  simpa [colors_length] using hc

/-- Witness for C10: a five-grapheme fragment, n = 9, k = 2. -/
theorem c10_text_preserved_witness :
    seg5.value.length ≤ 9 - 2 ∧
      ((gradientify seg5 gradIdx 9 2).map Segment.value).flatten = seg5.value :=
  ⟨by decide, c10_text_preserved seg5 gradIdx 9 2 (by decide)⟩

/-- C4: every output fragment of `gradientify` carries some style, and that
style agrees with the input fragment's style (or the default style when the
input has none) on every attribute except possibly the foreground color. -/
theorem c4_style_frame (seg : Segment) (gr : Gradient) (n k : Nat)
    (o : Segment) (ho : o ∈ gradientify seg gr n k) :
    ∃ s, o.style = some s ∧ eraseFg s = eraseFg (styleOrDefault seg) := by
  simp only [gradientify, List.mem_map] at ho
  obtain ⟨cv, -, rfl⟩ := ho
  cases seg <;> exact ⟨_, rfl, rfl⟩

/-- Witness for C4: the unique output of recoloring the concrete fill
fragment is in the output list and its style differs from the input style at
most in the foreground. -/
theorem c4_style_frame_witness :
    Segment.fill ⟨["a"], some blueBold⟩ ∈ gradientify fillEx gradConst 1 0 ∧
      ∃ s, (Segment.fill ⟨["a"], some blueBold⟩).style = some s ∧
        eraseFg s = eraseFg (styleOrDefault fillEx) :=
  ⟨by decide, c4_style_frame fillEx gradConst 1 0
    (Segment.fill ⟨["a"], some blueBold⟩) (by decide)⟩

/-- C3: when the samples are sufficient — before each fragment the total
sample count is at least the running offset plus that fragment's grapheme
count — the recoloring loop emits exactly one fragment per input grapheme
cluster: its output length is the total grapheme count of the stream. -/
theorem c3_output_count (built : Except String Gradient) (magma : Gradient)
    (n : Nat) (segs : List Segment) (t : Nat)
    (h : samplesSufficient n segs t = true) :
    (recolorSegments built magma n segs t).length
      = (segs.map fun s => s.value.length).sum := by
  induction segs generalizing t with
  | nil => rfl
  | cons s rest ih =>
    simp only [samplesSufficient, Bool.and_eq_true, decide_eq_true_eq] at h
    obtain ⟨h1, h2⟩ := h
    simp only [recolorSegments, List.length_append, List.map_cons,
      List.sum_cons, ih _ h2, gradientify_length]
    omega

/-- Witness for C3 at a concrete two-fragment stream, n = 144, t = 0. -/
theorem c3_output_count_witness :
    samplesSufficient 144 segsEx 0 = true ∧
      (recolorSegments built0 magma0 144 segsEx 0).length
        = (segsEx.map fun s => s.value.length).sum :=
  ⟨by decide, c3_output_count built0 magma0 144 segsEx 0 (by decide)⟩

/-- C1, counterexample: for a `Fill` fragment the code does NOT replace the
foreground color by the sampled color — the emitted fragment differs from the
one the claim (and the spec sentence behind it, `emitSegmentSpec`) describes.
Concretely: one blue bold `Fill` grapheme, constant gradient (9, 9, 9),
n = 1, k = 0, i = 0: the output keeps the blue foreground. -/
theorem c1_counterexample :
    (gradientify fillEx gradConst 1 0)[0]?
      ≠ (fillEx.value[0]?).map fun v =>
          emitSegmentSpec fillEx (gradConst.colorAt 1 (0 + 0)) v := by
  decide

/-- C1, amended: the i-th output fragment of `gradientify` has as its text
the i-th grapheme cluster; its style is the input style (default when
absent) with the foreground replaced by the (k+i)-th of the n sampled colors
for the `Text` variant, while the `Fill` variant and any other variant keep
the style unchanged (`emitSegment`); `Text` stays `Text`, `Fill` stays
`Fill`, anything else degrades to `Text`. -/
theorem c1_gradientify_emission (seg : Segment) (gr : Gradient) (n k i : Nat)
    (hc : seg.value.length ≤ n - k) :
    (gradientify seg gr n k)[i]?
      = (seg.value[i]?).map fun v => emitSegment seg (gr.colorAt n (k + i)) v := by
  rw [getElem?_gradientify, getElem?_zip, List.getElem?_drop]
  by_cases hi : i < seg.value.length
  · have hkn : k + i < n := by omega
    rw [getElem?_colors gr hkn, List.getElem?_eq_getElem hi]
    simp
  · have hnone : seg.value[i]? = none := List.getElem?_eq_none (by omega)
    cases h2 : (gr.colors n)[k + i]? <;> simp [hnone, h2]

/-- Witness for C1 (amended): the five-grapheme text fragment of the spec's
scenario, n = 144, k = 0, position i = 4. -/
theorem c1_gradientify_emission_witness :
    seg5.value.length ≤ 144 - 0 ∧
      (gradientify seg5 gradIdx 144 0)[4]?
        = (seg5.value[4]?).map fun v =>
            emitSegment seg5 (gradIdx.colorAt 144 (0 + 4)) v :=
  ⟨by decide, c1_gradientify_emission seg5 gradIdx 144 0 4 (by decide)⟩

/-- C2: the code advances the running offset by `segment.value().len()` —
the UTF-8 byte length — not by the grapheme-cluster count.  On the
one-fragment stream whose text is the precomposed "é" (one grapheme, two
bytes) the offset after the prefix is 2 while the sum of grapheme counts is
1, so the next fragment starts at sample 2 and skips sample 1. -/
theorem c2_offset_is_bytes_not_graphemes :
    runningOffsetAfter [Segment.text ⟨[eAcute], none⟩] 0 = 2 ∧
      ([Segment.text ⟨[eAcute], none⟩].map fun s => s.value.length).sum = 1 ∧
      (2 : Nat) ≠ 1 := by
  decide

/-- The negated login check, in terms of the environment: some `LOGNAME` is
present and differs from the effective username. -/
lemma not_login_iff (env : String → Option String) (u : String) :
    (!is_login_user env u) = true ↔ ∃ l, env "LOGNAME" = some l ∧ l ≠ u := by
  cases h : env "LOGNAME" with
  | none => simp [is_login_user, h]
  | some l => simp [is_login_user, h]

/-- The SSH check, in terms of the three environment variables. -/
lemma ssh_iff (envOs : String → Option String) :
    is_ssh_session envOs = true ↔
      ((envOs "SSH_CONNECTION").isSome = true
        ∨ (envOs "SSH_CLIENT").isSome = true
        ∨ (envOs "SSH_TTY").isSome = true) := by
  simp [is_ssh_session]

/-- On a construction error the loop recolors exactly as it would with the
fallback curve. -/
lemma recolorSegments_error (e : String) (magma : Gradient) (n : Nat)
    (segs : List Segment) (t : Nat) :
    recolorSegments (.error e) magma n segs t
      = recolorSegments (.ok magma) magma n segs t := by
  induction segs generalizing t with
  | nil => rfl
  | cons s rest ih => simp [recolorSegments, chooseGradient, ih]

/-- C6: when the effective-username environment variable is absent, `module`
returns `none`, regardless of `show_always`, elevation, login name or SSH
variables. -/
theorem c6_no_username_no_render (env envOs : String → Option String)
    (isRoot : Bool) (config : UsernameConfig)
    (fmt : String → String → String → Except String (List Segment))
    (built : Except String Gradient) (magma : Gradient)
    (h : env USERNAME_ENV_VAR = none) :
    module env envOs isRoot config fmt built magma = none := by
  simp [module, h]

/-- Witness for C6: an empty environment, with `show_always` set, elevation
claimed and an SSH variable present in the OS-string view. -/
theorem c6_no_username_no_render_witness :
    envNone USERNAME_ENV_VAR = none ∧
      module envNone envOs0 true config1 fmtOk built0 magma0 = none :=
  ⟨rfl, c6_no_username_no_render envNone envOs0 true config1 fmtOk built0 magma0 rfl⟩

/-- C7: when the template formatter fails (parse or substitution error),
`module` returns `none` — never a partial fragment list. -/
theorem c7_format_error_no_render (env envOs : String → Option String)
    (isRoot : Bool) (config : UsernameConfig)
    (fmt : String → String → String → Except String (List Segment))
    (built : Except String Gradient) (magma : Gradient) (u e : String)
    (hu : env USERNAME_ENV_VAR = some u)
    (he : fmt config.format
      (if isRoot then config.style_root else config.style_user) u = .error e) :
    module env envOs isRoot config fmt built magma = none := by
  simp only [module, hu]
  split
  · rfl
  · simp [he]

/-- Witness for C7: the always-failing formatter on a showing configuration. -/
theorem c7_format_error_no_render_witness :
    env0 USERNAME_ENV_VAR = some "astronaut" ∧
      fmtErr config1.format
        (if (false : Bool) then config1.style_root else config1.style_user)
        "astronaut" = .error "boom" ∧
      module env0 envOs0 false config1 fmtErr built0 magma0 = none :=
  ⟨rfl, rfl, c7_format_error_no_render env0 envOs0 false config1 fmtErr
    built0 magma0 "astronaut" "boom" rfl rfl⟩

/-- C8: when gradient construction fails, the fallback curve is substituted
(`chooseGradient` yields `magma`) and the render proceeds exactly as it
would with the fallback curve: `module` never aborts on a malformed
gradient. -/
theorem c8_build_error_falls_back (env envOs : String → Option String)
    (isRoot : Bool) (config : UsernameConfig)
    (fmt : String → String → String → Except String (List Segment))
    (e : String) (magma : Gradient) :
    chooseGradient (.error e) magma = magma ∧
      module env envOs isRoot config fmt (.error e) magma
        = module env envOs isRoot config fmt (.ok magma) magma := by
  refine ⟨rfl, ?_⟩
  simp only [module]
  cases env USERNAME_ENV_VAR with
  | none => rfl
  | some u =>
    simp only []
    split
    · rfl
    · cases fmt config.format
        (if isRoot then config.style_root else config.style_user) u with
      | error _ => rfl
      | ok segs => simp [recolorSegments_error]

/-- C5, counterexample: with `USER = LOGNAME = astronaut`, no elevation,
`show_always` unset and `SSH_TTY` present but EMPTY, the module renders
(the code checks only presence, `is_some()`), while the claim's conditions —
including "some SSH variable is present and non-empty" (`ssh_nonempty`) —
are all false, refuting the claimed equivalence. -/
theorem c5_counterexample :
    (module env0 envOs0 false config0 fmtEmpty built0 magma0).isSome = true
      ∧ (config0.show_always || false || !is_login_user env0 "astronaut"
          || ssh_nonempty envOs0) = false := by
  decide

/-- C5, amended: given that the effective-username variable is present, the
module renders iff the template formatting succeeds AND at least one of:
`show_always`; elevation; some `LOGNAME` is present and differs from the
username (absence counts as "same"); some SSH variable is PRESENT (its
value, even empty, is not inspected). -/
theorem c5_display_decision (env envOs : String → Option String)
    (isRoot : Bool) (config : UsernameConfig)
    (fmt : String → String → String → Except String (List Segment))
    (built : Except String Gradient) (magma : Gradient) (u : String)
    (hu : env USERNAME_ENV_VAR = some u) :
    (module env envOs isRoot config fmt built magma).isSome = true ↔
      ((config.show_always = true ∨ isRoot = true
          ∨ (∃ l, env "LOGNAME" = some l ∧ l ≠ u)
          ∨ (envOs "SSH_CONNECTION").isSome = true
          ∨ (envOs "SSH_CLIENT").isSome = true
          ∨ (envOs "SSH_TTY").isSome = true)
        ∧ ∃ segs, fmt config.format
            (if isRoot then config.style_root else config.style_user) u
              = .ok segs) := by
  have hdisj : (config.show_always || isRoot || !is_login_user env u
      || is_ssh_session envOs) = true ↔
      (config.show_always = true ∨ isRoot = true
        ∨ (∃ l, env "LOGNAME" = some l ∧ l ≠ u)
        ∨ (envOs "SSH_CONNECTION").isSome = true
        ∨ (envOs "SSH_CLIENT").isSome = true
        ∨ (envOs "SSH_TTY").isSome = true) := by
    simp only [Bool.or_eq_true, not_login_iff, ssh_iff, or_assoc]
  simp only [module, hu]
  cases hsh : (config.show_always || isRoot || !is_login_user env u
      || is_ssh_session envOs) with
  | false =>
    rw [hsh] at hdisj
    simp only [hsh, Bool.not_false, if_true]
    simp [← hdisj]
  | true =>
    rw [hsh] at hdisj
    simp only [hsh, Bool.not_true, if_false]
    cases hf : fmt config.format
        (if isRoot then config.style_root else config.style_user) u with
    | error e => simp [← hdisj, hf]
    | ok segs => simp [← hdisj, hf]

/-- Witness for C5 (amended): `USER = cosmonaut` differs from
`LOGNAME = astronaut`; the equivalence holds at this concrete input. -/
theorem c5_display_decision_witness :
    envUser USERNAME_ENV_VAR = some "cosmonaut" ∧
      ((module envUser envNone false config0 fmtOk built0 magma0).isSome = true ↔
        ((config0.show_always = true ∨ (false : Bool) = true
            ∨ (∃ l, envUser "LOGNAME" = some l ∧ l ≠ "cosmonaut")
            ∨ (envNone "SSH_CONNECTION").isSome = true
            ∨ (envNone "SSH_CLIENT").isSome = true
            ∨ (envNone "SSH_TTY").isSome = true)
          ∧ ∃ segs, fmtOk config0.format
              (if (false : Bool) then config0.style_root else config0.style_user)
              "cosmonaut" = .ok segs)) :=
  ⟨rfl, c5_display_decision envUser envNone false config0 fmtOk built0 magma0
    "cosmonaut" rfl⟩

end GradientUsername
